import Mathlib

/-!
Verification of the PGP key export engine
(`go/engine/pgp_export_key.go` of Criptoultra/client).

The Go code is shallowly embedded: the engine's own logic is translated
function by function, while the external collaborators (identity loader,
secret key store, armoring routine, and the collaborator-supplied
matchers on fingerprints, kids and whole keys) are abstract function
fields of an `Env` record or of the key records themselves, exactly as
the code consumes them.
-/

namespace PGPExport

/-- Go errors, distinguished only as far as the engine distinguishes them:
`NoSecretKeyError` (detected by type assertion), `BadKeyError` (constructed
by the engine with a message), and every other error (opaque, carried as a
message). -/
inductive GoError where
  | noSecretKey : GoError
  | badKey : String → GoError
  | generic : String → GoError
deriving DecidableEq, Repr

/-- Go struct `keybase1.KeyInfo`: one exported result. -/
structure KeyInfo where
  fingerprint : String
  key : String
  desc : String
deriving DecidableEq, Repr

/-- The `queryType` enumeration of the Go file. -/
inductive QueryType where
  | unset : QueryType
  | fingerprint : QueryType
  | kid : QueryType
  | either : QueryType
deriving DecidableEq, Repr

/-- Go struct `keybase1.PGPQuery`: the caller's options (query pattern, exactness
flag, secret flag). -/
structure PGPQuery where
  query : String
  exactMatch : Bool
  secret : Bool

/-- Collaborator type `libkb.PgpFingerprint`, as the engine consumes it: its string form
(`fp.String()`) and its collaborator-implemented `Match` method. -/
structure Fingerprint where
  str : String
  matchQ : String → Bool → Bool

/-- A KID, as the engine consumes it: its collaborator-implemented
`Match` method. -/
structure Kid where
  matchQ : String → Bool → Bool

/-- One active PGP key record of the loaded user, as consumed by
`exportPublic`: `GetFingerprintP`, `Encode`, `GetKid`,
`VerboseDescription`, and the collaborator matcher
`libkb.KeyMatchesQuery`. -/
structure PgpKey where
  fingerprintP : Option Fingerprint
  encode : Except GoError String
  kid : Kid
  verboseDescription : String
  matchesQuery : String → Bool → Bool

/-- Collaborator type `libkb.User`, as the engine consumes it: `GetActivePgpKeys`. -/
structure User where
  getActivePgpKeys : Bool → List PgpKey

/-- The `libkb.PGPKeyType` key-type restriction passed to the store. -/
inductive KeyType where
  | pgp : KeyType
deriving DecidableEq, Repr

/-- Collaborator type `libkb.SecretKeyArg` as built by `exportSecret`. -/
structure SecretKeyArg where
  me : User
  keyType : KeyType
  keyQuery : String
  exactMatch : Bool

/-- The generic key returned by the store's unlock: `GetFingerprintP`
and the outcome of the `(*libkb.PgpKeyBundle)` type assertion. -/
structure GenericKey where
  fingerprintP : Option Fingerprint
  isPgpKeyBundle : Bool

/-- The SKB handle returned by the store: `RawUnlockedKey` (nil-able). -/
structure SKB where
  rawUnlockedKey : Option (List Nat)

/-- The external collaborators: `libkb.LoadMe` (with
`PublicKeyOptional: true`), `Keyrings.GetSecretKeyWithPrompt`
(taking the `SecretKeyArg` and the reason string), and
`libkb.PgpKeyRawToArmored`. -/
structure Env where
  loadMe : Except GoError User
  getSecretKeyWithPrompt : SecretKeyArg → String → Except GoError (GenericKey × SKB)
  pgpKeyRawToArmored : List Nat → Bool → Except GoError String

/-- The engine state: `arg`, `qtype`, the accumulated results `res`,
and the loaded user `me` (nil before `loadMe`). -/
structure PGPKeyExportEngine where
  arg : PGPQuery
  qtype : QueryType
  res : List KeyInfo
  me : Option User

/-- Constructor `NewPGPKeyExportEngine`: query type `either`. -/
def NewPGPKeyExportEngine (options : PGPQuery) : PGPKeyExportEngine :=
  { arg := options, qtype := QueryType.either, res := [], me := none }

/-- Constructor `NewPGPKeyExportByKIDEngine`: query type `kid`. -/
def NewPGPKeyExportByKIDEngine (options : PGPQuery) : PGPKeyExportEngine :=
  { arg := options, qtype := QueryType.kid, res := [], me := none }

/-- Constructor `NewPGPKeyExportByFingerprintEngine`: query type `fingerprint`. -/
def NewPGPKeyExportByFingerprintEngine (options : PGPQuery) : PGPKeyExportEngine :=
  { arg := options, qtype := QueryType.fingerprint, res := [], me := none }

/-- Accessor `Results()`. -/
def Results (e : PGPKeyExportEngine) : List KeyInfo :=
  e.res

/-- Method `pushRes`: append one `KeyInfo` built from the fingerprint's string
form, the key material and the description. -/
def pushRes (e : PGPKeyExportEngine) (fp : Fingerprint) (key : String)
    (desc : String) : PGPKeyExportEngine :=
  { e with res := e.res ++ [{ fingerprint := fp.str, key := key, desc := desc }] }

/-- The match decision of `exportPublic`'s loop body: when
`len(e.arg.Query) > 0`, switch on `e.qtype` (`either` delegates to
`libkb.KeyMatchesQuery`, `fingerprint` to `fp.Match`, `kid` to
`k.GetKid().Match`; the Go `switch` leaves `match` false for `unset`);
when the query is empty the guard is skipped and the record is pushed
unconditionally. -/
def keyExportMatch (qt : QueryType) (arg : PGPQuery) (k : PgpKey)
    (fp : Fingerprint) : Bool :=
  if arg.query.length > 0 then
    match qt with
    | QueryType.either => k.matchesQuery arg.query arg.exactMatch
    | QueryType.fingerprint => fp.matchQ arg.query arg.exactMatch
    | QueryType.kid => k.kid.matchQ arg.query arg.exactMatch
    | QueryType.unset => false
  else
    true

/-- The `for _, k := range keys` loop of `exportPublic`, accumulating
into `res`: skip a record whose fingerprint is nil or whose `Encode`
errs; otherwise push iff the match decision holds. -/
def exportPublicLoop (qt : QueryType) (arg : PGPQuery) :
    List PgpKey → List KeyInfo → List KeyInfo
  | [], res => res
  | k :: ks, res =>
    match k.fingerprintP, k.encode with
    | some fp, Except.ok s =>
      if keyExportMatch qt arg k fp then
        exportPublicLoop qt arg ks
          (res ++ [{ fingerprint := fp.str, key := s, desc := k.verboseDescription }])
      else
        exportPublicLoop qt arg ks res
    | some _, Except.error _ => exportPublicLoop qt arg ks res
    | none, _ => exportPublicLoop qt arg ks res

/-- Method `exportPublic`: iterate `e.me.GetActivePgpKeys(false)` with the loop
above; always returns a nil error. The loaded user is passed explicitly
(Go reads it from the `e.me` field set by `loadMe`). -/
def exportPublic (e : PGPKeyExportEngine) (me : User) :
    PGPKeyExportEngine × Option GoError :=
  ({ e with res := exportPublicLoop e.qtype e.arg (me.getActivePgpKeys false) e.res },
   none)

/-- Method `exportSecret`: build the `SecretKeyArg`, call the store's
`GetSecretKeyWithPrompt` with reason "key export"; a
`NoSecretKeyError` becomes a nil-error empty outcome, any other store
error propagates; on success check fingerprint presence, the
`PgpKeyBundle` type assertion and `RawUnlockedKey`, each failure a
`BadKeyError`; then armor via `PgpKeyRawToArmored(raw, true)` and push
one result with empty description. -/
def exportSecret (env : Env) (e : PGPKeyExportEngine) (me : User) :
    PGPKeyExportEngine × Option GoError :=
  let ska : SecretKeyArg :=
    { me := me, keyType := KeyType.pgp, keyQuery := e.arg.query,
      exactMatch := e.arg.exactMatch }
  match env.getSecretKeyWithPrompt ska "key export" with
  | Except.error err =>
    match err with
    | GoError.noSecretKey => (e, none)
    | _ => (e, some err)
  | Except.ok (key, skb) =>
    match key.fingerprintP with
    | none => (e, some (GoError.badKey "no fingerprint found"))
    | some fp =>
      if key.isPgpKeyBundle = false then
        (e, some (GoError.badKey "Expected a PGP key"))
      else
        match skb.rawUnlockedKey with
        | none => (e, some (GoError.badKey "can't get raw representation of key"))
        | some raw =>
          match env.pgpKeyRawToArmored raw true with
          | Except.error err => (e, some err)
          | Except.ok ret => (pushRes e fp ret "", none)

/-- Method `Run`: fail fast with the configuration error when `qtype` is
`unset`; otherwise `loadMe` (propagating its error), then branch on
`e.arg.Secret`. -/
def Run (env : Env) (e : PGPKeyExportEngine) :
    PGPKeyExportEngine × Option GoError :=
  if e.qtype = QueryType.unset then
    (e, some (GoError.generic "PGPKeyExportEngine: query type not set."))
  else
    match env.loadMe with
    | Except.error err => (e, some err)
    | Except.ok me =>
      let e1 : PGPKeyExportEngine := { e with me := some me }
      if e1.arg.secret then exportSecret env e1 me else exportPublic e1 me

/-- Spec-side characterization of the public path: in active-key
iteration order, the records that expose a fingerprint, whose public
encoding succeeds, and that match under the selected target field. -/
def specPublicResults (qt : QueryType) (arg : PGPQuery) (me : User) :
    List KeyInfo :=
  (me.getActivePgpKeys false).filterMap (fun k =>
    match k.fingerprintP, k.encode with
    | some fp, Except.ok s =>
      if keyExportMatch qt arg k fp then
        some { fingerprint := fp.str, key := s, desc := k.verboseDescription }
      else
        none
    | some _, Except.error _ => none
    | none, _ => none)

/-- Spec-side characterization of a filterless public export: every
active record with a fingerprint and an obtainable public encoding. -/
def encodableKeyInfos (me : User) : List KeyInfo :=
  (me.getActivePgpKeys false).filterMap (fun k =>
    match k.fingerprintP, k.encode with
    | some fp, Except.ok s =>
      some { fingerprint := fp.str, key := s, desc := k.verboseDescription }
    | some _, Except.error _ => none
    | none, _ => none)

/-! ## Helper lemmas -/

/-- The public-export loop accumulates exactly the filter-map of the
remaining keys onto the results accumulated so far. -/
theorem exportPublicLoop_eq (qt : QueryType) (arg : PGPQuery)
    (keys : List PgpKey) (res : List KeyInfo) :
    exportPublicLoop qt arg keys res =
      res ++ keys.filterMap (fun k =>
        match k.fingerprintP, k.encode with
        | some fp, Except.ok s =>
          if keyExportMatch qt arg k fp then
            some { fingerprint := fp.str, key := s, desc := k.verboseDescription }
          else
            none
        | some _, Except.error _ => none
        | none, _ => none) := by
  induction keys generalizing res with
  | nil => simp [exportPublicLoop]
  | cons k ks ih =>
    cases hfp : k.fingerprintP with
    | none => simp [exportPublicLoop, hfp, ih]
    | some fp =>
      cases henc : k.encode with
      | error g => simp [exportPublicLoop, hfp, henc, ih]
      | ok s =>
        by_cases hm : keyExportMatch qt arg k fp
        · simp [exportPublicLoop, hfp, henc, hm, ih]
        · simp [exportPublicLoop, hfp, henc, hm, ih]

/-- Lemma: `exportPublic` appends `specPublicResults` to the prior results and
never errs. -/
theorem exportPublic_eq (e : PGPKeyExportEngine) (me : User) :
    (exportPublic e me).1.res = e.res ++ specPublicResults e.qtype e.arg me ∧
      (exportPublic e me).2 = none := by
  constructor
  · simp [exportPublic, specPublicResults, exportPublicLoop_eq]
  · rfl

/-- Lemma: `exportSecret` either leaves the results unchanged or appends
exactly one entry. -/
theorem exportSecret_res (env : Env) (e : PGPKeyExportEngine) (me : User) :
    (exportSecret env e me).1.res = e.res ∨
      ∃ ki, (exportSecret env e me).1.res = e.res ++ [ki] := by
  unfold exportSecret
  cases h : env.getSecretKeyWithPrompt
      { me := me, keyType := KeyType.pgp, keyQuery := e.arg.query,
        exactMatch := e.arg.exactMatch } "key export" with
  | error err => cases err <;> simp [h]
  | ok p =>
    obtain ⟨key, skb⟩ := p
    cases hfp : key.fingerprintP with
    | none => simp [h, hfp]
    | some fp =>
      by_cases hb : key.isPgpKeyBundle = false
      · simp [h, hfp, hb]
      · cases hraw : skb.rawUnlockedKey with
        | none => simp [h, hfp, hb, hraw]
        | some raw =>
          cases harm : env.pgpKeyRawToArmored raw true with
          | error g => simp [h, hfp, hb, hraw, harm]
          | ok ret => simp [h, hfp, hb, hraw, harm, pushRes]

/-- Whenever `exportSecret` returns an error, the results are
unchanged. -/
theorem exportSecret_err_res (env : Env) (e : PGPKeyExportEngine)
    (me : User) (h : (exportSecret env e me).2 ≠ none) :
    (exportSecret env e me).1.res = e.res := by
  revert h
  unfold exportSecret
  cases h : env.getSecretKeyWithPrompt
      { me := me, keyType := KeyType.pgp, keyQuery := e.arg.query,
        exactMatch := e.arg.exactMatch } "key export" with
  | error err => cases err <;> simp [h]
  | ok p =>
    obtain ⟨key, skb⟩ := p
    cases hfp : key.fingerprintP with
    | none => simp [h, hfp]
    | some fp =>
      by_cases hb : key.isPgpKeyBundle = false
      · simp [h, hfp, hb]
      · cases hraw : skb.rawUnlockedKey with
        | none => simp [h, hfp, hb, hraw]
        | some raw =>
          cases harm : env.pgpKeyRawToArmored raw true with
          | error g => simp [h, hfp, hb, hraw, harm]
          | ok ret => simp [h, hfp, hb, hraw, harm, pushRes]

/-- Unfolding `Run` on a configured public export: load, record the user, take the
public path. -/
theorem Run_eq_public (env : Env) (e : PGPKeyExportEngine) (me : User)
    (hq : e.qtype ≠ QueryType.unset) (hs : e.arg.secret = false)
    (hload : env.loadMe = Except.ok me) :
    Run env e = exportPublic { e with me := some me } me := by
  unfold Run
  rw [if_neg hq, hload]
  simp [hs]

/-- Unfolding `Run` on a configured secret export: load, record the user, take the
secret path. -/
theorem Run_eq_secret (env : Env) (e : PGPKeyExportEngine) (me : User)
    (hq : e.qtype ≠ QueryType.unset) (hs : e.arg.secret = true)
    (hload : env.loadMe = Except.ok me) :
    Run env e = exportSecret env { e with me := some me } me := by
  unfold Run
  rw [if_neg hq, hload]
  simp [hs]

/-! ## Claims -/

/-- C1: for every public export (secret flag false), after a successful
identity load the result sequence equals, in the identity's active-key
iteration order, exactly those key records that expose a fingerprint,
whose public encoding succeeds, and that match the query under the
selected target field; records missing a fingerprint or failing to
encode are silently skipped, and there is no limit on the number of
results. -/
theorem publicExportResults (env : Env) (e : PGPKeyExportEngine) (me : User)
    (hq : e.qtype ≠ QueryType.unset) (hs : e.arg.secret = false)
    (h0 : e.res = []) (hload : env.loadMe = Except.ok me) :
    (Run env e).2 = none ∧
      (Run env e).1.res = specPublicResults e.qtype e.arg me := by
  rw [Run_eq_public env e me hq hs hload]
  have h := exportPublic_eq { e with me := some me } me
  refine ⟨h.2, ?_⟩
  rw [h.1]
  simp [h0]

/-- C2: for every secret export, if the store reports a
no-secret-key-found error the operation returns success with an empty
result sequence; every other failure from the unlock step is returned
unchanged. -/
theorem secretExportStoreError (env : Env) (e : PGPKeyExportEngine)
    (me : User) (err : GoError)
    (hq : e.qtype ≠ QueryType.unset) (hs : e.arg.secret = true)
    (h0 : e.res = []) (hload : env.loadMe = Except.ok me)
    (herr : env.getSecretKeyWithPrompt
        { me := me, keyType := KeyType.pgp, keyQuery := e.arg.query,
          exactMatch := e.arg.exactMatch } "key export" = Except.error err) :
    (err = GoError.noSecretKey →
        (Run env e).2 = none ∧ (Run env e).1.res = []) ∧
      (err ≠ GoError.noSecretKey → (Run env e).2 = some err) := by
  rw [Run_eq_secret env e me hq hs hload]
  unfold exportSecret
  constructor
  · rintro rfl
    simp [herr, h0]
  · intro hne
    cases err with
    | noSecretKey => exact absurd rfl hne
    | badKey m => simp [herr]
    | generic m => simp [herr]

/-- C3: for every secret export in which the store returns an unlocked
key, the engine checks in turn that the key exposes a fingerprint, that
it is a PGP key bundle, and that a raw unlocked representation exists;
each failure yields a bad-key error with its own message and leaves the
result sequence untouched. -/
theorem secretExportBadKey (env : Env) (e : PGPKeyExportEngine) (me : User)
    (key : GenericKey) (skb : SKB)
    (hq : e.qtype ≠ QueryType.unset) (hs : e.arg.secret = true)
    (hload : env.loadMe = Except.ok me)
    (hok : env.getSecretKeyWithPrompt
        { me := me, keyType := KeyType.pgp, keyQuery := e.arg.query,
          exactMatch := e.arg.exactMatch } "key export" =
      Except.ok (key, skb)) :
    (key.fingerprintP = none →
        Run env e = ({ e with me := some me },
          some (GoError.badKey "no fingerprint found"))) ∧
      (∀ fp, key.fingerprintP = some fp → key.isPgpKeyBundle = false →
        Run env e = ({ e with me := some me },
          some (GoError.badKey "Expected a PGP key"))) ∧
      (∀ fp, key.fingerprintP = some fp → key.isPgpKeyBundle = true →
        skb.rawUnlockedKey = none →
        Run env e = ({ e with me := some me },
          some (GoError.badKey "can't get raw representation of key"))) := by
  rw [Run_eq_secret env e me hq hs hload]
  unfold exportSecret
  refine ⟨?_, ?_, ?_⟩
  · intro hfp
    simp [hok, hfp]
  · intro fp hfp hb
    simp [hok, hfp, hb]
  · intro fp hfp hb hraw
    simp [hok, hfp, hb, hraw]

/-- C4: whenever the target-field selector is unset, the run fails fast
with the configuration error before consulting any collaborator (the
outcome is independent of the environment), and the engine state — in
particular the result sequence — is unchanged. -/
theorem unsetQueryTypeFailsFast (env env2 : Env) (e : PGPKeyExportEngine)
    (h : e.qtype = QueryType.unset) :
    Run env e =
        (e, some (GoError.generic "PGPKeyExportEngine: query type not set.")) ∧
      Run env e = Run env2 e := by
  constructor <;> simp [Run, h]

/-- The match decision is identically true under an empty query. -/
theorem keyExportMatch_empty_query (qt : QueryType) (arg : PGPQuery)
    (hq : arg.query = "") (k : PgpKey) (fp : Fingerprint) :
    keyExportMatch qt arg k fp = true := by
  simp [keyExportMatch, hq]

/-- C5: with an empty query pattern the match decision is true for every
record and every selector value, so a public export with an empty query
includes every active key record that has a fingerprint and an
obtainable public encoding. -/
theorem emptyQueryMatchesAll (e : PGPKeyExportEngine) (me : User)
    (hq : e.arg.query = "") (h0 : e.res = []) :
    (∀ qt k fp, keyExportMatch qt e.arg k fp = true) ∧
      (exportPublic e me).1.res = encodableKeyInfos me := by
  refine ⟨fun qt k fp => keyExportMatch_empty_query qt e.arg hq k fp, ?_⟩
  rw [(exportPublic_eq e me).1, h0]
  simp only [List.nil_append]
  unfold specPublicResults encodableKeyInfos
  apply List.filterMap_congr
  intro k _
  cases hfp : k.fingerprintP with
  | none => rfl
  | some fp =>
    cases henc : k.encode with
    | error g => rfl
    | ok s => simp [keyExportMatch_empty_query e.qtype e.arg hq k fp]

/-- C6: a secret export appends at most one result, while a public
export produces between 0 and N results, N the number of active key
records of the identity. -/
theorem resultCountInvariant (env : Env) (e : PGPKeyExportEngine)
    (h0 : e.res = []) :
    (e.arg.secret = true → (Run env e).1.res.length ≤ 1) ∧
      (e.arg.secret = false → ∀ me, env.loadMe = Except.ok me →
        (Run env e).1.res.length ≤ (me.getActivePgpKeys false).length) := by
  constructor
  · intro hs
    by_cases hq : e.qtype = QueryType.unset
    · simp [Run, hq, h0]
    · cases hload : env.loadMe with
      | error g => simp [Run, if_neg hq, hload, h0]
      | ok me =>
        rw [Run_eq_secret env e me hq hs hload]
        rcases exportSecret_res env { e with me := some me } me with h | ⟨ki, h⟩
        · rw [h]; simp [h0]
        · rw [h]; simp [h0]
  · intro hs me hload
    by_cases hq : e.qtype = QueryType.unset
    · simp [Run, hq, h0]
    · rw [Run_eq_public env e me hq hs hload,
        (exportPublic_eq { e with me := some me } me).1]
      simp only [h0]
      simpa [specPublicResults] using
        List.length_filterMap_le _ (me.getActivePgpKeys false)

/-- C8: whenever the run ends in an error — configuration error, load
error, non-benign unlock failure, bad-key error or secret-encoding
error — that error is surfaced as is and the result sequence is empty:
no partial result is observable alongside an error. -/
theorem errorImpliesEmptyResults (env : Env) (e : PGPKeyExportEngine)
    (h0 : e.res = []) (herr : (Run env e).2 ≠ none) :
    (Run env e).1.res = [] := by
  by_cases hq : e.qtype = QueryType.unset
  · simp [Run, hq, h0]
  · cases hload : env.loadMe with
    | error g => simp [Run, if_neg hq, hload, h0]
    | ok me =>
      cases hs : e.arg.secret with
      | false =>
        rw [Run_eq_public env e me hq hs hload] at herr
        exact absurd (exportPublic_eq { e with me := some me } me).2 herr
      | true =>
        rw [Run_eq_secret env e me hq hs hload] at herr ⊢
        rw [exportSecret_err_res env { e with me := some me } me herr]
        simp [h0]

/-- C9: on the fully successful secret path — fingerprint present, PGP
key bundle, raw representation available, armoring succeeded — exactly
one `KeyInfo` is appended, carrying the fingerprint's string form, the
armored secret encoding and an empty description. -/
theorem secretExportSuccessAppendsOne (env : Env) (e : PGPKeyExportEngine)
    (me : User) (key : GenericKey) (skb : SKB) (fp : Fingerprint)
    (raw : List Nat) (ret : String)
    (hq : e.qtype ≠ QueryType.unset) (hs : e.arg.secret = true)
    (hload : env.loadMe = Except.ok me)
    (hok : env.getSecretKeyWithPrompt
        { me := me, keyType := KeyType.pgp, keyQuery := e.arg.query,
          exactMatch := e.arg.exactMatch } "key export" =
      Except.ok (key, skb))
    (hfp : key.fingerprintP = some fp)
    (hb : key.isPgpKeyBundle = true)
    (hraw : skb.rawUnlockedKey = some raw)
    (harm : env.pgpKeyRawToArmored raw true = Except.ok ret) :
    (Run env e).2 = none ∧
      (Run env e).1.res =
        e.res ++ [{ fingerprint := fp.str, key := ret, desc := "" }] := by
  rw [Run_eq_secret env e me hq hs hload]
  unfold exportSecret
  simp [hok, hfp, hb, hraw, harm, pushRes]

/-- C7 (amended): a failure of the encoding collaborator while rendering
secret material is propagated verbatim as the operation's outcome; a
public record whose encoding fails is silently skipped instead, the
public path never failing. -/
theorem secretEncodingErrorPropagates (env : Env) (e : PGPKeyExportEngine)
    (me : User) (key : GenericKey) (skb : SKB) (raw : List Nat)
    (g : GoError)
    (hq : e.qtype ≠ QueryType.unset) (hs : e.arg.secret = true)
    (hload : env.loadMe = Except.ok me)
    (hok : env.getSecretKeyWithPrompt
        { me := me, keyType := KeyType.pgp, keyQuery := e.arg.query,
          exactMatch := e.arg.exactMatch } "key export" =
      Except.ok (key, skb))
    (hfp : ∃ fp, key.fingerprintP = some fp)
    (hb : key.isPgpKeyBundle = true)
    (hraw : skb.rawUnlockedKey = some raw)
    (harm : env.pgpKeyRawToArmored raw true = Except.error g) :
    (Run env e).2 = some g ∧
      ∀ e2 me2, (exportPublic e2 me2).2 = none := by
  obtain ⟨fp, hfp⟩ := hfp
  rw [Run_eq_secret env e me hq hs hload]
  unfold exportSecret
  refine ⟨?_, fun e2 me2 => rfl⟩
  simp [hok, hfp, hb, hraw, harm]

/-- C10: the public export path itself always returns a nil error, so a
run that reaches it (selector set, identity loaded, secret flag false)
always succeeds, whatever the identity's key records hold. -/
theorem publicExportNeverFails (env : Env) (e : PGPKeyExportEngine)
    (me : User)
    (hq : e.qtype ≠ QueryType.unset) (hs : e.arg.secret = false)
    (hload : env.loadMe = Except.ok me) :
    (Run env e).2 = none ∧
      ∀ e2 me2, (exportPublic e2 me2).2 = none := by
  rw [Run_eq_public env e me hq hs hload]
  exact ⟨rfl, fun e2 me2 => rfl⟩

/-! ## Concrete instances -/

/-- Fingerprint "AAAA1111" whose collaborator matcher accepts the
pattern "AAAA". -/
def fpA : Fingerprint :=
  { str := "AAAA1111", matchQ := fun q _ => decide (q = "AAAA") }

/-- Fingerprint "BBBB2222" whose collaborator matcher accepts nothing. -/
def fpB : Fingerprint :=
  { str := "BBBB2222", matchQ := fun _ _ => false }

/-- A KID whose collaborator matcher accepts nothing. -/
def kidNone : Kid := { matchQ := fun _ _ => false }

/-- Key record A: fingerprint "AAAA1111", encodable. -/
def keyA : PgpKey :=
  { fingerprintP := some fpA, encode := Except.ok "PUB-A", kid := kidNone,
    verboseDescription := "key A", matchesQuery := fun _ _ => true }

/-- Key record B: fingerprint "BBBB2222", encodable. -/
def keyB : PgpKey :=
  { fingerprintP := some fpB, encode := Except.ok "PUB-B", kid := kidNone,
    verboseDescription := "key B", matchesQuery := fun _ _ => true }

/-- Key record C: no fingerprint (must be skipped by the public path). -/
def keyC : PgpKey :=
  { fingerprintP := none, encode := Except.ok "PUB-C", kid := kidNone,
    verboseDescription := "key C", matchesQuery := fun _ _ => true }

/-- Key record D: fingerprint present, but its public encoding fails. -/
def keyD : PgpKey :=
  { fingerprintP := some fpB, encode := Except.error (GoError.generic "encode failed"),
    kid := kidNone, verboseDescription := "key D", matchesQuery := fun _ _ => true }

/-- The identity: active keys A, B, C, D in that order. -/
def userAB : User := { getActivePgpKeys := fun _ => [keyA, keyB, keyC, keyD] }

/-- Store outcome building blocks for the secret path. -/
def goodSecretKey : GenericKey := { fingerprintP := some fpA, isPgpKeyBundle := true }

/-- A secret key handle lacking a fingerprint. -/
def noFpSecretKey : GenericKey := { fingerprintP := none, isPgpKeyBundle := true }

/-- A secret key handle of the wrong key family. -/
def wrongFamilyKey : GenericKey := { fingerprintP := some fpA, isPgpKeyBundle := false }

/-- An SKB exposing raw unlocked bytes. -/
def goodSkb : SKB := { rawUnlockedKey := some [1, 2, 3] }

/-- An SKB with no raw unlocked representation. -/
def noRawSkb : SKB := { rawUnlockedKey := none }

/-- Environment: identity loads as `userAB`, the store reports no secret
key, armoring yields "ARMOR". -/
def envPub : Env :=
  { loadMe := Except.ok userAB,
    getSecretKeyWithPrompt := fun _ _ => Except.error GoError.noSecretKey,
    pgpKeyRawToArmored := fun _ _ => Except.ok "ARMOR" }

/-- Environment whose store fails with a non-benign error. -/
def envStoreFail : Env :=
  { envPub with
    getSecretKeyWithPrompt := fun _ _ => Except.error (GoError.generic "store io failure") }

/-- Environment whose store unlocks a well-formed secret key. -/
def envSecretOk : Env :=
  { envPub with
    getSecretKeyWithPrompt := fun _ _ => Except.ok (goodSecretKey, goodSkb) }

/-- Environment whose store returns a key without a fingerprint. -/
def envNoFp : Env :=
  { envPub with
    getSecretKeyWithPrompt := fun _ _ => Except.ok (noFpSecretKey, goodSkb) }

/-- Environment whose store returns a key of the wrong family. -/
def envWrongFamily : Env :=
  { envPub with
    getSecretKeyWithPrompt := fun _ _ => Except.ok (wrongFamilyKey, goodSkb) }

/-- Environment whose store returns a key with no raw representation. -/
def envNoRaw : Env :=
  { envPub with
    getSecretKeyWithPrompt := fun _ _ => Except.ok (goodSecretKey, noRawSkb) }

/-- Environment whose armoring collaborator fails. -/
def envArmorFail : Env :=
  { envSecretOk with
    pgpKeyRawToArmored := fun _ _ => Except.error (GoError.generic "armor failure") }

/-- A public export engine with an empty query. -/
def engPub : PGPKeyExportEngine :=
  NewPGPKeyExportEngine { query := "", exactMatch := false, secret := false }

/-- A secret export engine with an empty query. -/
def engSecret : PGPKeyExportEngine :=
  NewPGPKeyExportEngine { query := "", exactMatch := false, secret := true }

/-- An engine whose query type was never set. -/
def engUnset : PGPKeyExportEngine :=
  { arg := { query := "", exactMatch := false, secret := false },
    qtype := QueryType.unset, res := [], me := none }

/-! ## Counterexample and witnesses -/

/-- C7 counterexample: key record D's encoding collaborator fails with
"encode failed", yet the public export's outcome is a nil error — the
encoding failure is not propagated to the caller; the record is skipped
and the remaining records are exported. -/
theorem encodingErrorNotPropagatedPublic :
    keyD.encode = Except.error (GoError.generic "encode failed") ∧
      (Run envPub engPub).2 = none ∧
      (Run envPub engPub).2 ≠ some (GoError.generic "encode failed") ∧
      (Run envPub engPub).1.res =
        [{ fingerprint := "AAAA1111", key := "PUB-A", desc := "key A" },
         { fingerprint := "BBBB2222", key := "PUB-B", desc := "key B" }] := by
  refine ⟨rfl, rfl, ?_, by decide⟩
  intro hc
  simp [Run, envPub, engPub, NewPGPKeyExportEngine, exportPublic] at hc

/-- Witness for C1 at the concrete identity and empty query. -/
theorem publicExportResults_witness :
    (Run envPub engPub).2 = none ∧
      (Run envPub engPub).1.res =
        specPublicResults engPub.qtype engPub.arg userAB :=
  publicExportResults envPub engPub userAB (by decide) rfl rfl rfl

/-- Witness for C2: both the benign and the non-benign store failure. -/
theorem secretExportStoreError_witness :
    ((Run envPub engSecret).2 = none ∧ (Run envPub engSecret).1.res = []) ∧
      (Run envStoreFail engSecret).2 = some (GoError.generic "store io failure") :=
  ⟨(secretExportStoreError envPub engSecret userAB GoError.noSecretKey
      (by decide) rfl rfl rfl rfl).1 rfl,
   (secretExportStoreError envStoreFail engSecret userAB
      (GoError.generic "store io failure")
      (by decide) rfl rfl rfl rfl).2 (by decide)⟩

/-- Witness for C3: all three bad-key postconditions at concrete
stores. -/
theorem secretExportBadKey_witness :
    Run envNoFp engSecret =
        ({ engSecret with me := some userAB },
          some (GoError.badKey "no fingerprint found")) ∧
      Run envWrongFamily engSecret =
        ({ engSecret with me := some userAB },
          some (GoError.badKey "Expected a PGP key")) ∧
      Run envNoRaw engSecret =
        ({ engSecret with me := some userAB },
          some (GoError.badKey "can't get raw representation of key")) :=
  ⟨(secretExportBadKey envNoFp engSecret userAB noFpSecretKey goodSkb
      (by decide) rfl rfl rfl).1 rfl,
   (secretExportBadKey envWrongFamily engSecret userAB wrongFamilyKey goodSkb
      (by decide) rfl rfl rfl).2.1 fpA rfl rfl,
   (secretExportBadKey envNoRaw engSecret userAB goodSecretKey noRawSkb
      (by decide) rfl rfl rfl).2.2 fpA rfl rfl rfl⟩

/-- Witness for C4 at the unset engine, against two environments. -/
theorem unsetQueryTypeFailsFast_witness :
    Run envPub engUnset =
        (engUnset, some (GoError.generic "PGPKeyExportEngine: query type not set.")) ∧
      Run envPub engUnset = Run envStoreFail engUnset :=
  unsetQueryTypeFailsFast envPub envStoreFail engUnset rfl

/-- Witness for C5 at the concrete identity and empty query. -/
theorem emptyQueryMatchesAll_witness :
    (∀ qt k fp, keyExportMatch qt engPub.arg k fp = true) ∧
      (exportPublic engPub userAB).1.res = encodableKeyInfos userAB :=
  emptyQueryMatchesAll engPub userAB rfl rfl

/-- Witness for C6: a concrete secret export and a concrete public
export. -/
theorem resultCountInvariant_witness :
    (Run envSecretOk engSecret).1.res.length ≤ 1 ∧
      (Run envPub engPub).1.res.length ≤
        (userAB.getActivePgpKeys false).length :=
  ⟨(resultCountInvariant envSecretOk engSecret rfl).1 rfl,
   (resultCountInvariant envPub engPub rfl).2 rfl userAB rfl⟩

/-- Witness for C7 (amended) at a concrete failing armorer. -/
theorem secretEncodingErrorPropagates_witness :
    (Run envArmorFail engSecret).2 = some (GoError.generic "armor failure") ∧
      ∀ e2 me2, (exportPublic e2 me2).2 = none :=
  secretEncodingErrorPropagates envArmorFail engSecret userAB goodSecretKey
    goodSkb [1, 2, 3] (GoError.generic "armor failure")
    (by decide) rfl rfl rfl ⟨fpA, rfl⟩ rfl rfl rfl

/-- Witness for C8 at a concrete failing store. -/
theorem errorImpliesEmptyResults_witness :
    (Run envStoreFail engSecret).2 ≠ none ∧
      (Run envStoreFail engSecret).1.res = [] :=
  ⟨by decide, errorImpliesEmptyResults envStoreFail engSecret rfl (by decide)⟩

/-- Witness for C9 at a concrete fully successful secret export. -/
theorem secretExportSuccessAppendsOne_witness :
    (Run envSecretOk engSecret).2 = none ∧
      (Run envSecretOk engSecret).1.res =
        engSecret.res ++ [{ fingerprint := fpA.str, key := "ARMOR", desc := "" }] :=
  secretExportSuccessAppendsOne envSecretOk engSecret userAB goodSecretKey
    goodSkb fpA [1, 2, 3] "ARMOR" (by decide) rfl rfl rfl rfl rfl rfl rfl

/-- Witness for C10 at the concrete identity. -/
theorem publicExportNeverFails_witness :
    (Run envPub engPub).2 = none ∧
      ∀ e2 me2, (exportPublic e2 me2).2 = none :=
  publicExportNeverFails envPub engPub userAB (by decide) rfl rfl

end PGPExport
